import Mathlib

/-!
A shallow embedding of the payment subsystem of Open-Aiartools (plan registry,
provider selection, the provider implementations' pure behaviour, and the two
reconciliation routes `/api/verify-payment` and `/api/creem/webhook`), together
with theorems settling the specification's claims about it.

JavaScript machine behaviour is modelled explicitly where the source relies on
it: `x || d` defaulting treats `0`, `""`, `null` as falsy; template
interpolation renders `null` as the string `null`; `JSON.stringify` renders a
`null` field without quotes; SQL `LIKE` patterns support `%` and `_`
wildcards; `Date.prototype.setMonth` rolls day-of-month overflow forward.
-/

/-! ## Calendar dates (JS `Date`, day granularity) -/

/-- A calendar date as the JS `Date` functions used by the source see it:
`month` is 0-based (as in JS), `day` is 1-based.  Time-of-day is not modelled;
no claim depends on it. -/
structure JsDate where
  year : Nat
  month : Nat
  day : Nat
deriving DecidableEq, Repr

/-- Gregorian leap year. -/
def isLeapYear (y : Nat) : Bool :=
  y % 4 = 0 && (y % 100 ≠ 0 || y % 400 = 0)

/-- Days in the (0-based) month `m` of year `y`. -/
def daysInMonth (y m : Nat) : Nat :=
  if m = 1 then (if isLeapYear y then 29 else 28)
  else if m = 3 ∨ m = 5 ∨ m = 8 ∨ m = 10 then 30
  else 31

/-- The next calendar day. -/
def nextDay (d : JsDate) : JsDate :=
  if d.day < daysInMonth d.year d.month then ⟨d.year, d.month, d.day + 1⟩
  else if d.month < 11 then ⟨d.year, d.month + 1, 1⟩
  else ⟨d.year + 1, 0, 1⟩

/-- `n` calendar days later (the webhook route's `Date.now() + 30*24*60*60*1000`). -/
def addDays : Nat → JsDate → JsDate
  | 0, d => d
  | n + 1, d => addDays n (nextDay d)

/-- JS `d.setMonth(d.getMonth() + 1)`: advance the month by one, carrying into
the year, and roll a day-of-month overflow forward into the following month
(e.g. Jan 31 becomes Mar 3), exactly as JS `Date` normalisation does. -/
def jsAddOneMonth (d : JsDate) : JsDate :=
  let y := if d.month + 1 ≥ 12 then d.year + 1 else d.year
  let m := if d.month + 1 ≥ 12 then d.month + 1 - 12 else d.month + 1
  if d.day ≤ daysInMonth y m then ⟨y, m, d.day⟩
  else
    let y' := if m + 1 ≥ 12 then y + 1 else y
    let m' := if m + 1 ≥ 12 then m + 1 - 12 else m + 1
    ⟨y', m', d.day - daysInMonth y m⟩

/-- Strict `<` on dates (`new Date(a) > new Date(b)` comparisons). -/
def jsDateLtb (a b : JsDate) : Bool :=
  a.year < b.year ||
  (a.year = b.year && (a.month < b.month ||
    (a.month = b.month && a.day < b.day)))

/-- A deterministic rendering of a date (stands in for `toISOString`; only its
determinism matters, no claim inspects the rendered text). -/
def dateToIso (d : JsDate) : String :=
  toString d.year ++ "-" ++ toString (d.month + 1) ++ "-" ++ toString d.day

/-! ## String machinery: substring test, SQL LIKE, JS split -/

/-- `hasPre needle hay`: `needle` is an initial segment of `hay`. -/
def hasPre : List Char → List Char → Bool
  | [], _ => true
  | _ :: _, [] => false
  | a :: as, b :: bs => a = b && hasPre as bs

/-- `hasSub needle hay`: `needle` occurs contiguously inside `hay`
(JS `String.prototype.includes`). -/
def hasSub (needle : List Char) : List Char → Bool
  | [] => needle.isEmpty
  | c :: rest => hasPre needle (c :: rest) || hasSub needle rest

/-- JS `s.includes(sub)`. -/
def jsIncludes (s sub : String) : Bool := hasSub sub.data s.data

/-- One step of SQL `LIKE` matching, with structural fuel (every recursive
call shrinks pattern or text, so `pattern.length + text.length + 1` fuel
always suffices): `%` matches any run of characters, `_` any single
character, everything else itself. -/
def sqlLikeFuel : Nat → List Char → List Char → Bool
  | 0, _, _ => false
  | fuel + 1, ps, t =>
    match ps, t with
    | [], [] => true
    | [], _ :: _ => false
    | '%' :: ps', t' =>
      sqlLikeFuel fuel ps' t' ||
        (match t' with
         | [] => false
         | _ :: ts => sqlLikeFuel fuel ('%' :: ps') ts)
    | '_' :: _, [] => false
    | '_' :: ps', _ :: ts => sqlLikeFuel fuel ps' ts
    | _ :: _, [] => false
    | p :: ps', c :: ts => p = c && sqlLikeFuel fuel ps' ts

/-- SQL `LIKE` matching (the drizzle `like(column, pattern)` predicate used by
both reconciliation routes). -/
def sqlLike (p t : List Char) : Bool :=
  sqlLikeFuel (p.length + t.length + 1) p t

/-- `LIKE` on strings, pattern first. -/
def sqlLikeStr (pat s : String) : Bool := sqlLike pat.data s.data

/-- JS `String.prototype.split(sep)` for a single-character separator. -/
def splitChar (sep : Char) : List Char → List (List Char)
  | [] => [[]]
  | c :: cs =>
    if c = sep then [] :: splitChar sep cs
    else
      match splitChar sep cs with
      | [] => [[c]]
      | w :: ws => (c :: w) :: ws

/-! ## JS value defaulting -/

/-- JS `x || d` for an optional string: `null`/missing and `""` are falsy. -/
def jsOrStr (v : Option String) (d : String) : String :=
  match v with
  | none => d
  | some s => if s = "" then d else s

/-- JS `x || d` for an optional number: `null`/missing and `0` are falsy. -/
def jsOrNat (v : Option Nat) (d : Nat) : Nat :=
  match v with
  | none => d
  | some n => if n = 0 then d else n

/-- JS template interpolation of a nullable string: `null` renders as the four
characters `null`. -/
def jsTemplate (v : Option String) : String :=
  match v with
  | none => "null"
  | some s => s

/-- `JSON.stringify` of a nullable string field value: `null` renders without
quotes, a string renders quoted. -/
def jsonOptStr (v : Option String) : String :=
  match v with
  | none => "null"
  | some s => "\"" ++ s ++ "\""

/-- JS `amount / 100` rendered as JSON (trailing zeros dropped as JS numbers
print them). -/
def jsNumDiv100 (n : Nat) : String :=
  let q := n / 100
  let r := n % 100
  if r = 0 then toString q
  else if r % 10 = 0 then toString q ++ "." ++ toString (r / 10)
  else if r < 10 then toString q ++ ".0" ++ toString r
  else toString q ++ "." ++ toString r

/-! ## Plan registry (`lib/payments/config.ts`) -/

/-- A payment plan (`PaymentPlan` in `lib/payments/types.ts`); `price` is in
minor units and `planKind` is the source's `type` field
(`"subscription"` or `"one_time"`). -/
structure PaymentPlan where
  id : String
  name : String
  price : Nat
  credits : Nat
  description : String
  planKind : String
deriving DecidableEq, Repr

/-- Modelled from the spec: `CREDIT_CONFIG.SUBSCRIPTION.PRO_MONTHLY_CREDITS`
lives in `lib/constants.ts`, which is not among the provided sources.  The
spec's credit-correctness property and happy-path scenarios give the pro
plan's monthly credit grant as 800. -/
def PRO_MONTHLY_CREDITS : Nat := 800

/-- `PAYMENT_PLANS` from `lib/payments/config.ts` as an association list. -/
def PAYMENT_PLANS : List (String × PaymentPlan) :=
  [("pro", ⟨"pro", "Pro Plan", 599, PRO_MONTHLY_CREDITS,
      "专业版方案 - 每月800积分", "subscription"⟩),
   ("credits_100", ⟨"credits_100", "100 积分包", 99, 100,
      "一次性购买 100 积分", "one_time"⟩),
   ("credits_500", ⟨"credits_500", "500 积分包", 399, 500,
      "一次性购买 500 积分", "one_time"⟩)]

/-- `getPaymentPlan` from `lib/payments/config.ts`. -/
def getPaymentPlan (planId : String) : Option PaymentPlan :=
  (PAYMENT_PLANS.find? (fun p => p.1 = planId)).map (·.2)

/-! ## Provider selection (`lib/payments/config.ts`, factory in `lib/db.ts`) -/

/-- `PaymentProviderType` from `lib/payments/types.ts`. -/
inductive PaymentProviderType where
  | stripe
  | alipay
  | wechat
  | paypal
  | mock
deriving DecidableEq, Repr

/-- The provider-selection part of `PAYMENT_CONFIG`: the configured default
and the ordered enabled list (both environment-supplied). -/
structure ProviderConfig where
  defaultProvider : PaymentProviderType
  enabledProviders : List PaymentProviderType
deriving DecidableEq, Repr

/-- `getActivePaymentProvider` from `lib/payments/config.ts`: the default if it
is enabled, else the first enabled provider, else `mock`. -/
def getActivePaymentProvider (cfg : ProviderConfig) : PaymentProviderType :=
  if cfg.defaultProvider ∈ cfg.enabledProviders then cfg.defaultProvider
  else cfg.enabledProviders.headD .mock

/-- `isPaymentProviderEnabled` from `lib/payments/config.ts`. -/
def isPaymentProviderEnabled (cfg : ProviderConfig)
    (provider : PaymentProviderType) : Bool :=
  provider ∈ cfg.enabledProviders

/-- The string value of a provider type (the TS union is a string literal
type, interpolated into error messages). -/
def providerTypeStr : PaymentProviderType → String
  | .stripe => "stripe"
  | .alipay => "alipay"
  | .wechat => "wechat"
  | .paypal => "paypal"
  | .mock => "mock"

/-- The environment facts `isConfigured` reads.  The mock provider is always
configured; the stripe provider is configured iff both its secrets are set;
the remaining registry entries throw before an instance exists. -/
structure ProviderEnv where
  stripeConfigured : Bool
deriving DecidableEq, Repr

/-- A constructed provider instance, tagged as the factory caches it. -/
inductive ProviderInstance where
  | stripeInst (configured : Bool)
  | mockInst
deriving DecidableEq, Repr

/-- `provider.isConfigured()` on an instance: `MockPaymentProvider` returns
`true` unconditionally; `StripePaymentProvider` reports its env check. -/
def instIsConfigured : ProviderInstance → Bool
  | .stripeInst c => c
  | .mockInst => true

/-- The `PAYMENT_PROVIDERS` registry from the factory: constructing stripe or
mock succeeds, the alipay/wechat/paypal entries throw. -/
def createProviderInstance (env : ProviderEnv) :
    PaymentProviderType → Except String ProviderInstance
  | .stripe => .ok (.stripeInst env.stripeConfigured)
  | .mock => .ok .mockInst
  | .alipay => .error "支付宝支付提供商尚未实现"
  | .wechat => .error "微信支付提供商尚未实现"
  | .paypal => .error "PayPal 支付提供商尚未实现"

/-- The factory's instance cache (`PaymentFactory.providers`). -/
def ProviderCache : Type := List (PaymentProviderType × ProviderInstance)

/-- `PaymentFactory.getProvider`, with fuel standing in for the source's
recursive `this.getProvider('mock')` fallback call (the recursion depth of the
source is at most one; `getProvider` runs it with fuel 2). -/
def getProviderFuel (cfg : ProviderConfig) (env : ProviderEnv) :
    Nat → ProviderCache → Option PaymentProviderType →
    Except String (ProviderInstance × ProviderCache)
  | 0, _, _ => .error "fuel exhausted"
  | fuel + 1, cache, requested =>
    let providerType := requested.getD (getActivePaymentProvider cfg)
    if ¬ isPaymentProviderEnabled cfg providerType then
      .error ("支付提供商 " ++ providerTypeStr providerType ++ " 未启用")
    else
      match cache.lookup providerType with
      | some p => .ok (p, cache)
      | none =>
        match createProviderInstance env providerType with
        | .error e => .error e
        | .ok provider =>
          if ¬ instIsConfigured provider then
            getProviderFuel cfg env fuel cache (some .mock)
          else
            .ok (provider, (providerType, provider) :: cache)

/-- `PaymentFactory.getProvider(type?)`. -/
def getProvider (cfg : ProviderConfig) (env : ProviderEnv)
    (cache : ProviderCache) (requested : Option PaymentProviderType) :
    Except String (ProviderInstance × ProviderCache) :=
  getProviderFuel cfg env 2 cache requested

/-! ## Durable state (`users`, `userActivities` tables) -/

/-- The fields of a `users` row that the payment subsystem reads or writes. -/
structure User where
  id : String
  email : String
  credits : Nat
  subscriptionCredits : Nat
  subscriptionStatus : String
  subscriptionPlan : Option String
  subscriptionStartDate : Option JsDate
  subscriptionEndDate : Option JsDate
  updatedAt : Option JsDate
deriving DecidableEq, Repr

/-- A `userActivities` row (the ledger); `metadata` is the JSON string the
source stores, queried with SQL `LIKE`. -/
structure Activity where
  userId : String
  kind : String
  description : String
  creditAmount : Nat
  metadata : String
  createdAt : JsDate
deriving DecidableEq, Repr

/-- The durable state both routes read and mutate. -/
structure Db where
  users : List User
  activities : List Activity
deriving DecidableEq, Repr

/-- `db.query.users.findFirst(where eq(users.email, e))`. -/
def findUserByEmail (db : Db) (email : String) : Option User :=
  db.users.find? (fun u => u.email = email)

/-- `db.query.users.findFirst(where eq(users.id, i))`. -/
def findUserById (db : Db) (id : String) : Option User :=
  db.users.find? (fun u => u.id = id)

/-- `db.update(users).set(f).where(eq(users.id, userId))`. -/
def updateUser (db : Db) (userId : String) (f : User → User) : Db :=
  { db with users := db.users.map (fun u => if u.id = userId then f u else u) }

/-- `db.insert(userActivities).values(a)`. -/
def insertActivity (db : Db) (a : Activity) : Db :=
  { db with activities := db.activities ++ [a] }

/-- The idempotency lookup both routes run:
`findFirst(where and(eq(userActivities.userId, userId),
like(userActivities.metadata, '%"sessionId":"<key>"%')))`. -/
def findActivityBySession (db : Db) (userId sessionKey : String) :
    Option Activity :=
  db.activities.find? (fun a =>
    a.userId = userId &&
    sqlLikeStr ("%\"sessionId\":\"" ++ sessionKey ++ "\"%") a.metadata)

/-- `hasActiveSubscription` as both the create-session and verify routes
compute it: status `active` and an end date strictly in the future. -/
def hasActiveSubscription (u : User) (now : JsDate) : Bool :=
  u.subscriptionStatus = "active" &&
    (match u.subscriptionEndDate with
     | some e => jsDateLtb now e
     | none => false)

/-! ## Provider results (`lib/payments/types.ts`) -/

/-- `PaymentVerificationResult`. -/
structure PaymentVerificationResult where
  success : Bool
  sessionId : String
  userId : Option String := none
  planId : Option String := none
  credits : Option Nat := none
  planType : Option String := none
  amount : Option Nat := none
  currency : Option String := none
  error : Option String := none
deriving DecidableEq, Repr

/-! ## The verify-payment route (`app/api/verify-payment/route.ts`) -/

/-- The query parameters the route reads (the remaining Creem echo parameters
are logged only). -/
structure VerifyQuery where
  session_id : Option String
  provider : Option String
  checkout_id : Option String
deriving DecidableEq, Repr

/-- The route's observable responses. -/
inductive VerifyResp where
  | unauthorized
  | missingSessionId
  | missingValidSessionId
  | noProviderAvailable
  | verifyFailed (err : Option String)
  | missingUserId
  | ownershipMismatch
  | userNotFound
  | alreadySubscribed
  | ok (sessionId : String) (amount : Option Nat) (currency : Option String)
deriving DecidableEq, Repr

/-- The metadata JSON the route stores for a subscription activation
(`JSON.stringify` of the object literal at `route.ts:191`): the raw
`session_id` query parameter — not `actualSessionId` — is the value
serialised. -/
def verifySubscriptionMetadata (q : VerifyQuery) (paymentPlanType planId : String)
    (endDate now : JsDate) : String :=
  "\x7b\"sessionId\":" ++ jsonOptStr q.session_id ++
  ",\"planType\":\"" ++ paymentPlanType ++
  "\",\"planId\":\"" ++ planId ++
  "\",\"subscriptionEndDate\":\"" ++ dateToIso endDate ++
  "\",\"source\":\"verify-payment-api\",\"timestamp\":\"" ++ dateToIso now ++
  "\"\x7d"

/-- The metadata JSON the route stores for a one-time purchase
(`route.ts:216`); again the raw `session_id` parameter is serialised. -/
def verifyOneTimeMetadata (q : VerifyQuery) (paymentPlanType planId : String)
    (now : JsDate) : String :=
  "\x7b\"sessionId\":" ++ jsonOptStr q.session_id ++
  ",\"planType\":\"" ++ paymentPlanType ++
  "\",\"planId\":\"" ++ planId ++
  "\",\"source\":\"verify-payment-api\",\"timestamp\":\"" ++ dateToIso now ++
  "\"\x7d"

/-- `GET /api/verify-payment`.  `verify` is the resolved provider's
`verifyPayment` (every branch of the provider-selection block delegates to it
with `actualSessionId`); `providersAvailable` models whether
`getAvailableProviders()` filtered to configured ones is non-empty. -/
def verifyPaymentGET (authEmail : Option String) (q : VerifyQuery)
    (verify : String → PaymentVerificationResult) (providersAvailable : Bool)
    (now : JsDate) (db : Db) : VerifyResp × Db :=
  match authEmail with
  | none => (.unauthorized, db)
  | some authed =>
    if q.session_id = none ∧ q.checkout_id = none then (.missingSessionId, db)
    else
      -- actualSessionId = checkoutId || sessionId, overridden to checkoutId
      -- when sessionId contains the unresolved placeholder
      let actualSessionId :=
        match q.session_id with
        | some s =>
          if jsIncludes s "\x7bCHECKOUT_SESSION_ID\x7d" then q.checkout_id
          else q.checkout_id.orElse (fun _ => q.session_id)
        | none => q.checkout_id
      match actualSessionId with
      | none => (.missingValidSessionId, db)
      | some sid =>
        -- provider selection: explicit provider, else inferred creem when a
        -- checkout_id is present, else the first available provider (throwing
        -- when none is available); every branch calls `verify sid`
        let providerChosen : Bool :=
          match q.provider with
          | some p => p != "undefined"
          | none => false
        if !providerChosen && q.checkout_id.isNone && !providersAvailable then
          (.noProviderAvailable, db)
        else
          let paymentResult := verify sid
          if ¬ paymentResult.success then (.verifyFailed paymentResult.error, db)
          else
            match paymentResult.userId with
            | none => (.missingUserId, db)
            | some userId =>
              match findUserByEmail db authed with
              | none => (.ownershipMismatch, db)
              | some currentUser =>
                if currentUser.id ≠ userId then (.ownershipMismatch, db)
                else
                  match findUserById db userId with
                  | none => (.userNotFound, db)
                  | some user =>
                    -- idempotency lookup keyed by the raw session_id parameter
                    let existingActivity :=
                      findActivityBySession db userId (jsTemplate q.session_id)
                    let okResp : VerifyResp :=
                      .ok paymentResult.sessionId paymentResult.amount
                        paymentResult.currency
                    match existingActivity with
                    | some _ => (okResp, db)
                    | none =>
                      let creditsAmount := jsOrNat paymentResult.credits 800
                      let paymentPlanType := jsOrStr paymentResult.planType "subscription"
                      if paymentPlanType = "subscription" ∧
                          hasActiveSubscription user now then
                        (.alreadySubscribed, db)
                      else
                        let subscriptionStartDate := now
                        let subscriptionEndDate := jsAddOneMonth now
                        let planIdStored := jsOrStr paymentResult.planId "pro"
                        if paymentPlanType = "subscription" then
                          let db1 := updateUser db userId (fun u =>
                            { u with
                              subscriptionCredits := creditsAmount,
                              subscriptionStatus := "active",
                              subscriptionPlan := some planIdStored,
                              subscriptionStartDate := some subscriptionStartDate,
                              subscriptionEndDate := some subscriptionEndDate,
                              updatedAt := some now })
                          let db2 := insertActivity db1
                            { userId := userId,
                              kind := "subscription_activated",
                              description := "credit_description.subscription_activated",
                              creditAmount := creditsAmount,
                              metadata := verifySubscriptionMetadata q
                                paymentPlanType planIdStored subscriptionEndDate now,
                              createdAt := now }
                          (okResp, db2)
                        else
                          let db1 := updateUser db userId (fun u =>
                            { u with
                              credits := u.credits + creditsAmount,
                              updatedAt := some now })
                          let db2 := insertActivity db1
                            { userId := userId,
                              kind := "credit_add",
                              description := "credit_description.purchase_credits",
                              creditAmount := creditsAmount,
                              metadata := verifyOneTimeMetadata q
                                paymentPlanType planIdStored now,
                              createdAt := now }
                          (okResp, db2)

/-! ## The Creem webhook route (`app/api/creem/webhook/route.ts`) -/

/-- The `customer` object of a webhook event payload. -/
structure WebhookCustomer where
  email : Option String
deriving DecidableEq, Repr

/-- The `data` object of a normalized webhook event (`eventData` in the
route). -/
structure WebhookEventData where
  id : String
  amount : Option Nat
  currency : Option String
  customer : Option WebhookCustomer
deriving DecidableEq, Repr

/-- The business metadata of a webhook event; `credits` is the string the
source runs `parseInt` on.  The route's `if (webhookEvent.metadata)` guard is
modelled as matching `some`; the model covers metadata objects carrying the
four fields the route destructures. -/
structure WebhookMetadata where
  userId : String
  planId : String
  credits : String
  planType : String
deriving DecidableEq, Repr

/-- `PaymentWebhookEvent` from `lib/payments/types.ts`, normalized. -/
structure PaymentWebhookEvent where
  id : String
  eventType : String
  data : WebhookEventData
  metadata : Option WebhookMetadata
deriving DecidableEq, Repr

/-- Modelled from the spec: `addCredits` lives in `lib/credit-service.ts`,
which is not among the provided sources.  Per §3/§4.5 of the spec, permanent
credits increment `creditBalance`, subscription credits are *replaced*
wholesale (never accumulated), and exactly one ledger entry (a
`userActivities` row) is appended recording the amount and the metadata the
caller supplies.  The row's `kind` is taken from the credit type. -/
def addCredits (userId : String) (amount : Nat) (description : String)
    (metadata : String) (creditType : String) (now : JsDate) (db : Db) : Db :=
  let db1 := updateUser db userId (fun u =>
    if creditType = "subscription" then { u with subscriptionCredits := amount }
    else { u with credits := u.credits + amount })
  insertActivity db1
    { userId := userId,
      kind := if creditType = "subscription" then "subscription_credit"
              else "credit_add",
      description := description,
      creditAmount := amount,
      metadata := metadata,
      createdAt := now }

/-- Decimal digit value of a character, if it is a digit. -/
def decDigit (c : Char) : Option Nat :=
  if 48 ≤ c.toNat ∧ c.toNat ≤ 57 then some (c.toNat - 48) else none

/-- Accumulate decimal digits. -/
def digitsToNat (acc : Nat) : List Char → Nat
  | [] => acc
  | c :: cs => digitsToNat (acc * 10 + (c.toNat - 48)) cs

/-- JS `parseInt` on the numeric credit strings the webhook metadata carries
(non-numeric strings, which make JS produce `NaN`, are outside the modelled
inputs and map to 0). -/
def jsParseIntNat (s : String) : Nat :=
  if s.data ≠ [] ∧ s.data.all (fun c => (decDigit c).isSome) then
    digitsToNat 0 s.data
  else 0

/-- The metadata JSON the webhook's completed-checkout branch hands to
`addCredits` (`route.ts:57`); the sessionId serialised here is the
backend-issued `eventData.id`. -/
def webhookCompletedMetadata (m : WebhookMetadata) (d : WebhookEventData)
    (now : JsDate) : String :=
  "\x7b\"type\":\"payment\",\"planId\":\"" ++ m.planId ++
  "\",\"sessionId\":\"" ++ d.id ++
  "\",\"amount\":" ++ (match d.amount with
                       | some a => if a = 0 then "0" else jsNumDiv100 a
                       | none => "0") ++
  ",\"currency\":\"" ++ jsOrStr d.currency "USD" ++
  "\",\"source\":\"creem-webhook\",\"timestamp\":\"" ++ dateToIso now ++
  "\"\x7d"

/-- The webhook route's responses. -/
inductive WebhookResp where
  | invalidWebhook
  | received
deriving DecidableEq, Repr

/-- The completed-checkout branch of the webhook route (`route.ts:31-92`). -/
def webhookCompletedStep (ev : PaymentWebhookEvent) (now : JsDate) (db : Db) :
    Db :=
  if ev.eventType = "checkout.completed" ∨ ev.eventType = "payment.completed" then
    match ev.metadata with
    | none => db
    | some m =>
      match findActivityBySession db m.userId ev.data.id with
      | some _ => db
      | none =>
        let creditType := if m.planType = "subscription" then "subscription"
                          else "permanent"
        let description := if m.planType = "subscription" then
            "credit_description.subscription_activated"
          else "credit_description.credit_purchase"
        let db1 := addCredits m.userId (jsParseIntNat m.credits) description
          (webhookCompletedMetadata m ev.data now) creditType now db
        if m.planType = "subscription" then
          updateUser db1 m.userId (fun u =>
            { u with
              subscriptionStatus := "active",
              subscriptionPlan := some m.planId,
              subscriptionStartDate := some now,
              subscriptionEndDate := some (addDays 30 now) })
        else db1
  else db

/-- The subscription-renewal branch (`route.ts:95-129`). -/
def webhookRenewalStep (ev : PaymentWebhookEvent) (now : JsDate) (db : Db) :
    Db :=
  if ev.eventType = "subscription.renewed" ∨
      ev.eventType = "invoice.payment_succeeded" then
    match ev.data.customer with
    | none => db
    | some c =>
      match c.email with
      | none => db
      | some email =>
        match findUserByEmail db email with
        | none => db
        | some user =>
          addCredits user.id PRO_MONTHLY_CREDITS
            "credit_description.subscription_renewal"
            ("\x7b\"type\":\"subscription_renewal\",\"invoiceId\":\"" ++
              ev.data.id ++ "\",\"amount\":" ++
              (match ev.data.amount with
               | some a => if a = 0 then "0" else jsNumDiv100 a
               | none => "0") ++
              ",\"currency\":\"" ++ jsOrStr ev.data.currency "USD" ++
              "\",\"source\":\"creem-webhook\"\x7d")
            "subscription" now db
  else db

/-- The subscription-cancelled branch (`route.ts:132-167`). -/
def webhookCancelledStep (ev : PaymentWebhookEvent) (now : JsDate) (db : Db) :
    Db :=
  if ev.eventType = "subscription.cancelled" ∨
      ev.eventType = "subscription.deleted" then
    match ev.data.customer with
    | none => db
    | some c =>
      match c.email with
      | none => db
      | some email =>
        match findUserByEmail db email with
        | none => db
        | some user =>
          let db1 := addCredits user.id 0
            "credit_description.subscription_expired"
            ("\x7b\"type\":\"subscription_expired\",\"amount\":0," ++
              "\"currency\":\"USD\",\"timestamp\":\"" ++ dateToIso now ++
              "\",\"source\":\"creem-webhook\"\x7d")
            "subscription" now db
          updateUser db1 user.id (fun u =>
            { u with
              subscriptionStatus := "canceled",
              subscriptionEndDate := some now })
  else db

/-- The payment-failed branch (`route.ts:170-195`). -/
def webhookFailedStep (ev : PaymentWebhookEvent) (_now : JsDate) (db : Db) :
    Db :=
  if ev.eventType = "payment.failed" ∨
      ev.eventType = "invoice.payment_failed" then
    match ev.data.customer with
    | none => db
    | some c =>
      match c.email with
      | none => db
      | some email =>
        match findUserByEmail db email with
        | none => db
        | some user =>
          if user.subscriptionStatus = "active" then
            updateUser db user.id (fun u =>
              { u with subscriptionStatus := "past_due" })
          else db
  else db

/-- `POST /api/creem/webhook`, given the (possibly `null`) event the provider's
`handleWebhook` produced from the raw payload: the four event-type branches
run in sequence, then the route acknowledges with `{received: true}`. -/
def creemWebhookPOST (event : Option PaymentWebhookEvent) (now : JsDate)
    (db : Db) : WebhookResp × Db :=
  match event with
  | none => (.invalidWebhook, db)
  | some ev =>
    let db1 := webhookCompletedStep ev now db
    let db2 := webhookRenewalStep ev now db1
    let db3 := webhookCancelledStep ev now db2
    let db4 := webhookFailedStep ev now db3
    (.received, db4)

/-! ## JS values (webhook payloads) -/

/-- A JSON-ish JS value, enough to model the raw webhook payloads the
providers' `handleWebhook` receive. -/
inductive JsValue where
  | vnull
  | vstr (s : String)
  | vnum (n : Int)
  | vobj (fields : List (String × JsValue))
deriving Repr, BEq

/-- Property access `v[k]` (`none` is JS `undefined`). -/
def JsValue.get (v : JsValue) (k : String) : Option JsValue :=
  match v with
  | .vobj fs => fs.lookup k
  | _ => none

/-- JS truthiness. -/
def jsTruthy : JsValue → Bool
  | .vnull => false
  | .vstr s => s ≠ ""
  | .vnum n => n ≠ 0
  | .vobj _ => true

/-- JS `x || d` on values: `undefined`, `null`, `""` and `0` fall through. -/
def jsOrVal (v : Option JsValue) (d : JsValue) : JsValue :=
  match v with
  | some x => if jsTruthy x then x else d
  | none => d

/-! ## Mock provider (`lib/payments/providers/mock.ts`) -/

/-- `MockPaymentProvider.isConfigured`. -/
def mockIsConfigured : Bool := true

/-- A created checkout session as the providers return it. -/
structure PaymentSessionRes where
  id : String
  url : String
deriving DecidableEq, Repr

/-- `MockPaymentProvider.createCheckoutSession`: rejects unknown plans and
issues a session id `mock_session_<Date.now()>_<random>`. -/
def mockCreateCheckoutSession (planId userId successUrl : String)
    (nowMs : Nat) (rand : String) : Except String PaymentSessionRes :=
  match getPaymentPlan planId with
  | none => .error ("未找到支付计划: " ++ planId)
  | some plan =>
    let sessionId := "mock_session_" ++ toString nowMs ++ "_" ++ rand
    .ok { id := sessionId,
          url := successUrl ++ "/payment/mock?session_id=" ++ sessionId ++
            "&plan_id=" ++ planId ++ "&user_id=" ++ userId ++
            "&credits=" ++ toString plan.credits ++
            "&amount=" ++ toString plan.price ++ "&provider=mock" }

/-- `MockPaymentProvider.verifyPayment`: any id with the `mock_session_` lead
verifies successfully with the fixed demo values of
`extractMockSessionData` (user `mock_user`, plan `pro`, 800 credits,
subscription billing); anything else fails. -/
def mockVerifyPayment (sessionId : String) : PaymentVerificationResult :=
  if hasPre "mock_session_".data sessionId.data then
    { success := true, sessionId := sessionId, userId := some "mock_user",
      planId := some "pro", credits := some 800,
      planType := some "subscription", amount := some 599,
      currency := some "usd" }
  else
    { success := false, sessionId := sessionId,
      error := some "无效的模拟支付会话" }

/-- `MockPaymentProvider.handleWebhook`: unconditionally wraps the payload in
a `payment.completed` event — no signature is ever read.  (For a `null`
payload the JS member access would throw; object payloads are the modelled
inputs.) -/
def mockHandleWebhook (payload : JsValue) (_signature : Option String)
    (nowMs : Nat) : Option (String × String × JsValue × JsValue) :=
  some ("mock_webhook_" ++ toString nowMs, "payment.completed", payload,
    jsOrVal (payload.get "metadata") (.vobj []))

/-! ## Stripe provider webhook (`lib/payments/providers/stripe.ts`) -/

/-- A Stripe event as `stripe.webhooks.constructEvent` yields it. -/
structure StripeEvent where
  id : String
  eventType : String
  dataObject : JsValue
deriving Repr, BEq

/-- `StripePaymentProvider.handleWebhook`: throws when the provider is
unconfigured or no signature header is present; otherwise the SDK's
signature check (`constructEvent`, passed in as its outcome) either yields
the event or fails, and a failure is caught and turned into `null`. -/
def stripeHandleWebhook (configured : Bool) (signature : Option String)
    (constructEvent : Except String StripeEvent) :
    Except String (Option StripeEvent) :=
  if !configured || signature.isNone then .error "Stripe webhook 配置错误"
  else
    match constructEvent with
    | .ok e => .ok (some e)
    | .error _ => .ok none

/-! ## Creem provider (`src/unnamed/part_006`) -/

/-- A normalized Creem webhook event as `CreemPaymentProvider.handleWebhook`
builds it. -/
structure CreemEvent where
  id : JsValue
  eventType : JsValue
  data : JsValue
  metadata : JsValue
deriving Repr, BEq

/-- `CreemPaymentProvider.handleWebhook`: any object payload is wrapped into
an event — no signature is read and no authentication happens; a non-object
payload makes the guard throw, which the catch turns into `null`. -/
def creemHandleWebhook (payload : JsValue) (_signature : Option String)
    (nowMs : Nat) : Option CreemEvent :=
  match payload with
  | .vobj _ =>
    some { id := jsOrVal (payload.get "id")
             (.vstr ("creem_webhook_" ++ toString nowMs)),
           eventType := jsOrVal (payload.get "event_type")
             (jsOrVal (payload.get "type") (.vstr "checkout.completed")),
           data := jsOrVal (payload.get "data") payload,
           metadata := jsOrVal (payload.get "metadata") (.vobj []) }
  | _ => none

/-- `CreemPaymentProvider.createCheckoutSession`'s request token:
`` `${params.userId}_${params.planId}_${Date.now()}` ``. -/
def creemMakeRequestId (userId planId : String) (nowMs : Nat) : String :=
  userId ++ "_" ++ planId ++ "_" ++ toString nowMs

/-- The fallback parse in `CreemPaymentProvider.verifyPayment`
(`part_006:141-148`): `requestId.split('_')`, taking `parts[0]` as the user id
and `parts[1]` as the plan id when at least two parts exist. -/
def creemParseRequestId (requestId : String) : Option (String × String) :=
  match splitChar '_' requestId.data with
  | u :: p :: _ => some (String.mk u, String.mk p)
  | _ => none

/-! ## The create-checkout-session route (`app/api/create-checkout-session/route.ts`) -/

/-- The request body (`locale`/`planId` carry destructuring defaults). -/
structure CreateSessionBody where
  locale : Option String
  planId : Option String
  paymentProvider : Option String
deriving DecidableEq, Repr

/-- The route's observable responses. -/
inductive CreateSessionResp where
  | configError
  | unauthorized
  | userNotFound
  | alreadySubscribed
  | planNotFound (planId : String)
  | providerUnavailable (p : String)
  | created (sessionId url provider : String)
  | failed (err : String)
deriving DecidableEq, Repr

/-- `POST /api/create-checkout-session`.  `createSession` stands for the
delegated `PaymentService.createCheckoutSession` network call (taking the
user id and plan id).  The route performs no database write at all, so it
returns only a response; every rejection happens before the delegate runs. -/
def createCheckoutSessionPOST (nextAuthUrlSet : Bool)
    (authEmail : Option String) (body : CreateSessionBody)
    (providerAvailable : String → Bool)
    (createSession : String → String → Except String PaymentSessionRes)
    (now : JsDate) (db : Db) : CreateSessionResp :=
  if !nextAuthUrlSet then .configError
  else
    match authEmail with
    | none => .unauthorized
    | some authed =>
      match findUserByEmail db authed with
      | none => .userNotFound
      | some user =>
        if hasActiveSubscription user now then .alreadySubscribed
        else
          let planId := body.planId.getD "pro"
          match getPaymentPlan planId with
          | none => .planNotFound planId
          | some _ =>
            let providerOk :=
              match body.paymentProvider with
              | some p => providerAvailable p
              | none => true
            if !providerOk then
              .providerUnavailable (body.paymentProvider.getD "")
            else
              match createSession user.id planId with
              | .error e => .failed e
              | .ok s => .created s.id s.url (jsOrStr body.paymentProvider "default")

/-! ## Claim C1: idempotent reconciliation -/

/-- Fixture: a user with no credits and no subscription. -/
def vUser1 : User := ⟨"u1", "u1@example.com", 0, 0, "none", none, none, none, none⟩

/-- Fixture: the query of a Creem success redirect, carrying only the
backend-issued `checkout_id` (no `session_id` parameter). -/
def vQuery1 : VerifyQuery := ⟨none, some "creem", some "ch_1"⟩

/-- Fixture: a successful verification of a one-time 100-credit payment. -/
def vRes1 : PaymentVerificationResult :=
  { success := true, sessionId := "ch_1", userId := some "u1",
    planId := some "credits_100", credits := some 100,
    planType := some "one_time" }

/-- Fixture: a reference instant. -/
def vNow1 : JsDate := ⟨2024, 0, 1⟩

/-- First delivery of the verification request. -/
def vRun1 : VerifyResp × Db :=
  verifyPaymentGET (some "u1@example.com") vQuery1 (fun _ => vRes1) true vNow1
    ⟨[vUser1], []⟩

/-- Second, identical delivery of the same verification request. -/
def vRun2 : VerifyResp × Db :=
  verifyPaymentGET (some "u1@example.com") vQuery1 (fun _ => vRes1) true vNow1
    vRun1.2

set_option maxRecDepth 8000 in
/-- C1 (code bug): delivering the very same verification request twice is NOT
idempotent.  The route stores the raw `session_id` query parameter in the
ledger metadata (here `null`, since the Creem redirect only carries
`checkout_id`) while the duplicate check scans for the pattern
`"sessionId":"null"`, which never matches the stored `"sessionId":null` — so
the second delivery passes the idempotency check, writes a second ledger
entry and credits the account again: two `userActivities` rows and 200
credits instead of one row and 100. -/
theorem C1_duplicate_delivery_double_credits :
    vRun1.1 = .ok "ch_1" none none ∧
    vRun1.2.activities.length = 1 ∧
    vRun1.2.users.map User.credits = [100] ∧
    vRun2.1 = .ok "ch_1" none none ∧
    vRun2.2.activities.length = 2 ∧
    vRun2.2.users.map User.credits = [200] := by
  refine ⟨?_, ?_, ?_, ?_, ?_, ?_⟩ <;> decide

/-! ## Claim C3: ledger records the canonical session identifier -/

/-- Fixture: the account for the placeholder-redirect scenario. -/
def phUser : User := ⟨"u3", "u3@example.com", 0, 0, "none", none, none, none, none⟩

/-- Fixture: a success redirect whose `session_id` is the unresolved
`{CHECKOUT_SESSION_ID}` template token, alongside the real backend-issued
`checkout_id`. -/
def phQuery : VerifyQuery :=
  ⟨some "\x7bCHECKOUT_SESSION_ID\x7d", some "creem", some "ch_real"⟩

/-- Fixture: the successful verification of the real checkout `ch_real`. -/
def phRes : PaymentVerificationResult :=
  { success := true, sessionId := "ch_real", userId := some "u3",
    planId := some "credits_100", credits := some 100,
    planType := some "one_time" }

/-- The reconciliation run for the placeholder-redirect scenario. -/
def phRun : VerifyResp × Db :=
  verifyPaymentGET (some "u3@example.com") phQuery (fun _ => phRes) true
    ⟨2024, 0, 1⟩ ⟨[phUser], []⟩

set_option maxRecDepth 8000 in
/-- C3 (code bug): although the route resolves the canonical id `ch_real`
(detecting the placeholder) and verifies exactly that id, the single ledger
entry it writes serialises the raw `session_id` parameter: its metadata
contains `"sessionId":"{CHECKOUT_SESSION_ID}"` — the unresolved placeholder —
and does not mention the verified identifier `ch_real` at all. -/
theorem C3_ledger_stores_placeholder :
    phRun.1 = .ok "ch_real" none none ∧
    phRun.2.activities.map
        (fun a => jsIncludes a.metadata
          "\"sessionId\":\"\x7bCHECKOUT_SESSION_ID\x7d\"") = [true] ∧
    phRun.2.activities.map
        (fun a => jsIncludes a.metadata "ch_real") = [false] := by
  refine ⟨?_, ?_, ?_⟩ <;> decide

/-! ## Claim C2: webhook authentication -/

/-- C2 counterexample: the commercial-card backend's `handleWebhook` *throws*
(rather than returning `null`) for a payload arriving without a signature
header, and the Creem and mock backends return a trusted event for a payload
that was never authenticated at all (no signature supplied). -/
theorem C2_counterexample :
    stripeHandleWebhook true none (.error "unverified") =
      .error "Stripe webhook 配置错误" ∧
    (creemHandleWebhook (.vobj [("type", .vstr "checkout.completed")])
      none 0).isSome = true ∧
    (mockHandleWebhook (.vobj []) none 0).isSome = true :=
  ⟨rfl, rfl, rfl⟩

/-- C2 (corrected): only the Stripe backend authenticates.  It returns the
event on a verified signature and `null` on a failed signature check, but
throws when it is unconfigured or when no signature header is present; the
Creem backend reads no signature and wraps every object payload in a trusted
event (`null` only for non-object payloads); the mock backend wraps every
payload unconditionally. -/
theorem C2_webhook_authentication_behaviour :
    (∀ (sig : Option String) (ce : Except String StripeEvent),
      stripeHandleWebhook false sig ce = .error "Stripe webhook 配置错误") ∧
    (∀ (c : Bool) (ce : Except String StripeEvent),
      stripeHandleWebhook c none ce = .error "Stripe webhook 配置错误") ∧
    (∀ (s : String) (e : StripeEvent),
      stripeHandleWebhook true (some s) (.ok e) = .ok (some e)) ∧
    (∀ (s msg : String),
      stripeHandleWebhook true (some s) (.error msg) = .ok none) ∧
    (∀ (fields : List (String × JsValue)) (sig : Option String) (n : Nat),
      (creemHandleWebhook (.vobj fields) sig n).isSome = true) ∧
    (∀ (sig : Option String) (n : Nat) (s : String),
      creemHandleWebhook (.vstr s) sig n = none) ∧
    (∀ (sig : Option String) (n : Nat),
      creemHandleWebhook .vnull sig n = none) ∧
    (∀ (p : JsValue) (sig : Option String) (n : Nat),
      (mockHandleWebhook p sig n).isSome = true) := by
  refine ⟨?_, ?_, ?_, ?_, ?_, ?_, ?_, ?_⟩ <;>
    intros <;>
    first
      | rfl
      | simp [stripeHandleWebhook, creemHandleWebhook, mockHandleWebhook]

/-! ## Claim C4: credit application and subscription end date -/

/-- Fixture: a currently unsubscribed user for the callback-path run. -/
def whUser : User := ⟨"u2", "u2@example.com", 0, 50, "none", none, none, none, none⟩

/-- Fixture: the activation instant 2024-01-01 (month is 0-based). -/
def whNow : JsDate := ⟨2024, 0, 1⟩

/-- The callback-path reconciliation of a completed subscription checkout. -/
def whRun : WebhookResp × Db :=
  creemWebhookPOST
    (some ⟨"evt_1", "checkout.completed", ⟨"ch_sub", some 599, some "USD", none⟩,
      some ⟨"u2", "pro", "800", "subscription"⟩⟩)
    whNow ⟨[whUser], []⟩

set_option maxRecDepth 8000 in
/-- C4 counterexample: reconciling a recurring plan on the callback path sets
`subscriptionEndDate` to 30 days after activation (2024-01-31), which is not
one month after the activation time 2024-01-01 (that is 2024-02-01, as the
verification path computes it). -/
theorem C4_counterexample :
    whRun.2.users.map User.subscriptionEndDate = [some (addDays 30 whNow)] ∧
    addDays 30 whNow = ⟨2024, 0, 31⟩ ∧
    jsAddOneMonth whNow = ⟨2024, 1, 1⟩ ∧
    addDays 30 whNow ≠ jsAddOneMonth whNow := by
  refine ⟨?_, ?_, ?_, ?_⟩ <;> decide

/-- C4 (corrected): for a fresh payment, a one-time plan with grant `G`
increments permanent `credits` by exactly `G` and leaves every subscription
field (including `subscriptionCredits`) untouched, on both paths; a recurring
plan with grant `G` *sets* `subscriptionCredits` to `G` (replacing the old
value) on both paths — but the subscription end date is one calendar month
after activation only on the verification path, while the callback path sets
it to 30 days after activation. -/
theorem C4_credit_application :
    (∀ (uid email sid pid : String) (G : Nat) (now : JsDate) (u : User),
      u.id = uid → u.email = email → G ≠ 0 → pid ≠ "" →
      verifyPaymentGET (some email) ⟨none, some "creem", some sid⟩
        (fun s => ({ success := true, sessionId := s, userId := some uid,
                     planId := some pid, credits := some G,
                     planType := some "one_time" } : PaymentVerificationResult))
        true now ⟨[u], []⟩ =
        (.ok sid none none,
         ⟨[{ u with
             credits := u.credits + G,
             updatedAt := some now }],
          [⟨uid, "credit_add", "credit_description.purchase_credits", G,
            verifyOneTimeMetadata ⟨none, some "creem", some sid⟩
              "one_time" pid now, now⟩]⟩)) ∧
    (∀ (uid email sid pid : String) (G : Nat) (now : JsDate) (u : User),
      u.id = uid → u.email = email → G ≠ 0 → pid ≠ "" →
      hasActiveSubscription u now = false →
      verifyPaymentGET (some email) ⟨none, some "creem", some sid⟩
        (fun s => ({ success := true, sessionId := s, userId := some uid,
                     planId := some pid, credits := some G,
                     planType := some "subscription" } :
                     PaymentVerificationResult))
        true now ⟨[u], []⟩ =
        (.ok sid none none,
         ⟨[{ u with
             subscriptionCredits := G, subscriptionStatus := "active",
             subscriptionPlan := some pid,
             subscriptionStartDate := some now,
             subscriptionEndDate := some (jsAddOneMonth now),
             updatedAt := some now }],
          [⟨uid, "subscription_activated",
            "credit_description.subscription_activated", G,
            verifySubscriptionMetadata ⟨none, some "creem", some sid⟩
              "subscription" pid (jsAddOneMonth now) now, now⟩]⟩)) ∧
    (∀ (uid pid credStr evId : String) (G : Nat) (amt : Option Nat)
        (cur : Option String) (now : JsDate) (u : User),
      u.id = uid → jsParseIntNat credStr = G →
      creemWebhookPOST (some ⟨evId, "checkout.completed",
          ⟨evId, amt, cur, none⟩, some ⟨uid, pid, credStr, "one_time"⟩⟩)
        now ⟨[u], []⟩ =
        (.received,
         ⟨[{ u with
             credits := u.credits + G }],
          [⟨uid, "credit_add", "credit_description.credit_purchase", G,
            webhookCompletedMetadata ⟨uid, pid, credStr, "one_time"⟩
              ⟨evId, amt, cur, none⟩ now, now⟩]⟩)) ∧
    (∀ (uid pid credStr evId : String) (G : Nat) (amt : Option Nat)
        (cur : Option String) (now : JsDate) (u : User),
      u.id = uid → jsParseIntNat credStr = G →
      creemWebhookPOST (some ⟨evId, "checkout.completed",
          ⟨evId, amt, cur, none⟩, some ⟨uid, pid, credStr, "subscription"⟩⟩)
        now ⟨[u], []⟩ =
        (.received,
         ⟨[{ u with
             subscriptionCredits := G, subscriptionStatus := "active",
             subscriptionPlan := some pid,
             subscriptionStartDate := some now,
             subscriptionEndDate := some (addDays 30 now) }],
          [⟨uid, "subscription_credit",
            "credit_description.subscription_activated", G,
            webhookCompletedMetadata ⟨uid, pid, credStr, "subscription"⟩
              ⟨evId, amt, cur, none⟩ now, now⟩]⟩)) := by
  refine ⟨?_, ?_, ?_, ?_⟩
  · intro uid email sid pid G now u hid hemail hG hpid
    simp [verifyPaymentGET, findUserByEmail, findUserById,
      findActivityBySession, updateUser, insertActivity, jsOrNat, jsOrStr,
      jsTemplate, hid, hemail, hG, hpid]
  · intro uid email sid pid G now u hid hemail hG hpid hactive
    simp [verifyPaymentGET, findUserByEmail, findUserById,
      findActivityBySession, updateUser, insertActivity, jsOrNat, jsOrStr,
      jsTemplate, hid, hemail, hG, hpid, hactive]
  · intro uid pid credStr evId G amt cur now u hid hG
    simp [creemWebhookPOST, webhookCompletedStep, webhookRenewalStep,
      webhookCancelledStep, webhookFailedStep, findActivityBySession,
      addCredits, updateUser, insertActivity, hG, hid,
      findUserByEmail]
  · intro uid pid credStr evId G amt cur now u hid hG
    simp [creemWebhookPOST, webhookCompletedStep, webhookRenewalStep,
      webhookCancelledStep, webhookFailedStep, findActivityBySession,
      addCredits, updateUser, insertActivity, hG, hid,
      findUserByEmail]

/-- C4 witness: the callback-path subscription conjunct at concrete inputs —
an 800-credit pro activation on 2024-01-01 replaces the 50 left-over
subscription credits with exactly 800 and sets the end date 30 days out. -/
theorem C4_credit_application_witness :
    creemWebhookPOST (some ⟨"evt_1", "checkout.completed",
        ⟨"ch_w", some 599, some "USD", none⟩,
        some ⟨"u2", "pro", "800", "subscription"⟩⟩)
      whNow ⟨[whUser], []⟩ =
      (.received,
       ⟨[{ whUser with
           subscriptionCredits := 800, subscriptionStatus := "active",
           subscriptionPlan := some "pro",
           subscriptionStartDate := some whNow,
           subscriptionEndDate := some (addDays 30 whNow) }],
        [⟨"u2", "subscription_credit",
          "credit_description.subscription_activated", 800,
          webhookCompletedMetadata ⟨"u2", "pro", "800", "subscription"⟩
            ⟨"ch_w", some 599, some "USD", none⟩ whNow, whNow⟩]⟩) :=
  C4_credit_application.2.2.2 "u2" "pro" "800" "ch_w" 800 (some 599)
    (some "USD") whNow whUser rfl (by decide)

/-! ## Claim C5: no double subscription -/

/-- Fixture: a user with an active, non-expired subscription and 50 left-over
subscription credits. -/
def actUser : User :=
  ⟨"u5", "u5@example.com", 0, 50, "active", some "pro",
    some ⟨2024, 0, 1⟩, some ⟨2030, 0, 1⟩, none⟩

/-- A fresh subscription-activation callback delivered for that user. -/
def actRun : WebhookResp × Db :=
  creemWebhookPOST
    (some ⟨"evt_5", "checkout.completed", ⟨"ch_5", some 599, some "USD", none⟩,
      some ⟨"u5", "pro", "800", "subscription"⟩⟩)
    ⟨2024, 0, 1⟩ ⟨[actUser], []⟩

set_option maxRecDepth 8000 in
/-- C5 counterexample: the completed-checkout callback path performs a fresh
subscription activation for an account that already has an active,
non-expired subscription — no business error, the ledger gains an entry and
`subscriptionCredits` is overwritten from 50 to 800 — so the claim's
"rejected on every path" is false on the callback path. -/
theorem C5_counterexample :
    hasActiveSubscription actUser ⟨2024, 0, 1⟩ = true ∧
    actRun.1 = .received ∧
    actRun.2.activities.length = 1 ∧
    actRun.2.users.map User.subscriptionCredits = [800] := by
  refine ⟨?_, ?_, ?_, ?_⟩ <;> decide

/-- C5 (corrected): the double-subscription guard holds on the session-creation
path and on the active-verification path — an account with an active,
non-expired subscription gets `alreadySubscribed` and neither the account
state nor the ledger changes (the session-creation route performs no state
write at all) — but not on the completed-checkout callback path (see the
counterexample). -/
theorem C5_double_subscription_rejection :
    (∀ (email : String) (body : CreateSessionBody) (pa : String → Bool)
        (cs : String → String → Except String PaymentSessionRes)
        (now : JsDate) (db : Db) (u : User),
      findUserByEmail db email = some u →
      hasActiveSubscription u now = true →
      createCheckoutSessionPOST true (some email) body pa cs now db =
        .alreadySubscribed) ∧
    (∀ (email sid uid : String) (q : VerifyQuery)
        (verify : String → PaymentVerificationResult) (now : JsDate)
        (db : Db) (u : User),
      q.checkout_id = some sid →
      verify sid =
        { success := true, sessionId := sid, userId := some uid,
          planType := some "subscription" } →
      findUserByEmail db email = some u →
      u.id = uid →
      findUserById db uid = some u →
      findActivityBySession db uid (jsTemplate q.session_id) = none →
      hasActiveSubscription u now = true →
      verifyPaymentGET (some email) q verify true now db =
        (.alreadySubscribed, db)) := by
  constructor
  · intro email body pa cs now db u hfind hactive
    simp [createCheckoutSessionPOST, hfind, hactive]
  · intro email sid uid q verify now db u hq hres hfind hid hfind2 hfresh
      hactive
    rcases q with ⟨qs, qp, qc⟩
    simp only at hq
    subst hq
    cases qs <;>
      simp [verifyPaymentGET, hres, hfind, hid, hfind2, hfresh, hactive,
        jsOrStr, jsTemplate] <;>
      split <;> simp_all [jsOrStr, jsTemplate]

/-- C5 witness: the verification path rejects a fresh subscription activation
for the already-subscribed fixture user and leaves the database unchanged. -/
theorem C5_double_subscription_rejection_witness :
    verifyPaymentGET (some "u5@example.com") ⟨none, some "creem", some "ch_6"⟩
      (fun s => ({ success := true, sessionId := s, userId := some "u5",
                   planType := some "subscription" } :
                   PaymentVerificationResult))
      true ⟨2024, 0, 1⟩ ⟨[actUser], []⟩ =
      (.alreadySubscribed, ⟨[actUser], []⟩) :=
  C5_double_subscription_rejection.2 "u5@example.com" "ch_6" "u5"
    ⟨none, some "creem", some "ch_6"⟩ _ ⟨2024, 0, 1⟩ ⟨[actUser], []⟩ actUser
    rfl rfl (by decide) rfl (by decide) (by decide) (by decide)

/-! ## Claim C6: request-token round trip -/

/-- C6 counterexample: the token built for plan `credits_100` parses back to
plan id `credits` — `split('_')` cannot respect a plan id that itself
contains an underscore — so the round trip fails on two of the three plans in
the registry. -/
theorem C6_counterexample :
    creemParseRequestId (creemMakeRequestId "u1" "credits_100" 1700000000000) =
      some ("u1", "credits") ∧
    ("credits" : String) ≠ "credits_100" := by
  exact ⟨rfl, by decide⟩

/-- Splitting at a separator that does not occur in the first block peels the
first block off. -/
theorem splitChar_sepfree_append (sep : Char) (u r : List Char)
    (h : sep ∉ u) : splitChar sep (u ++ sep :: r) = u :: splitChar sep r := by
  induction u with
  | nil => simp [splitChar]
  | cons c cs ih =>
    have hc : c ≠ sep := fun hcs => h (hcs ▸ List.mem_cons_self c cs)
    have hcs : sep ∉ cs := fun hm => h (List.mem_cons_of_mem c hm)
    simp [splitChar, hc, ih hcs]

/-- C6 (corrected): the round trip
`creemParseRequestId (creemMakeRequestId accountId planId t) = (accountId,
planId)` holds exactly when neither the account id nor the plan id contains
an underscore (so it holds for plan `pro` but not for `credits_100` or
`credits_500`, whose parsed plan id is the prefix before their first
underscore). -/
theorem C6_request_token_roundtrip (userId planId : String) (nowMs : Nat)
    (hu : '_' ∉ userId.data) (hp : '_' ∉ planId.data) :
    creemParseRequestId (creemMakeRequestId userId planId nowMs) =
      some (userId, planId) := by
  have hdata : (creemMakeRequestId userId planId nowMs).data =
      userId.data ++ '_' :: (planId.data ++ '_' :: (toString nowMs).data) := by
    simp [creemMakeRequestId, String.data_append]
  rw [creemParseRequestId, hdata, splitChar_sepfree_append _ _ _ hu,
    splitChar_sepfree_append _ _ _ hp]

/-- C6 witness: the round trip at the underscore-free plan `pro`. -/
theorem C6_request_token_roundtrip_witness :
    creemParseRequestId (creemMakeRequestId "u1" "pro" 1700000000000) =
      some ("u1", "pro") :=
  C6_request_token_roundtrip "u1" "pro" 1700000000000 (by decide) (by decide)

/-! ## Claim C7: fallback to the mock provider -/

/-- C7 counterexample: with stripe enabled but unconfigured and mock *not* in
the enabled list, resolving stripe raises the "mock 未启用" error instead of
returning the mock instance — the fallback re-enters `getProvider`, whose
enablement check rejects mock. -/
theorem C7_counterexample :
    isPaymentProviderEnabled ⟨.stripe, [.stripe]⟩ .stripe = true ∧
    getProvider ⟨.stripe, [.stripe]⟩ ⟨false⟩ [] (some .stripe) =
      .error "支付提供商 mock 未启用" := by
  exact ⟨by decide, rfl⟩

/-- C7 (corrected): resolving an enabled, instantiable but unconfigured
provider (stripe is the only such type; the mock provider is always
configured) yields the mock instance — provided mock itself is enabled — and
the fallback terminates after exactly one level, since the mock instance's
`isConfigured` is `true`. -/
theorem C7_unconfigured_falls_back_to_mock (cfg : ProviderConfig)
    (env : ProviderEnv) (cache : ProviderCache)
    (hst : isPaymentProviderEnabled cfg .stripe = true)
    (hmock : isPaymentProviderEnabled cfg .mock = true)
    (henv : env.stripeConfigured = false)
    (hc1 : cache.lookup .stripe = none)
    (hc2 : cache.lookup .mock = none) :
    getProvider cfg env cache (some .stripe) =
      .ok (.mockInst, (.mock, .mockInst) :: cache) := by
  simp [getProvider, getProviderFuel, hst, hmock, henv, hc1, hc2,
    createProviderInstance, instIsConfigured, getActivePaymentProvider]

/-- C7 witness: the fallback at a concrete configuration with both stripe and
mock enabled and stripe unconfigured. -/
theorem C7_unconfigured_falls_back_to_mock_witness :
    getProvider ⟨.mock, [.stripe, .mock]⟩ ⟨false⟩ [] (some .stripe) =
      .ok (.mockInst, [(.mock, .mockInst)]) :=
  C7_unconfigured_falls_back_to_mock ⟨.mock, [.stripe, .mock]⟩ ⟨false⟩ []
    (by decide) (by decide) rfl rfl rfl

/-! ## Claim C8: resolution priority and rejection -/

/-- C8 counterexample: with the configured default (stripe) not in the enabled
list, unrequested resolution does NOT reject — `getActivePaymentProvider`
silently substitutes the first enabled provider and resolution succeeds with
the mock instance. -/
theorem C8_counterexample :
    isPaymentProviderEnabled ⟨.stripe, [.mock]⟩
      (ProviderConfig.defaultProvider ⟨.stripe, [.mock]⟩) = false ∧
    getProvider ⟨.stripe, [.mock]⟩ ⟨false⟩ [] none =
      .ok (.mockInst, [(.mock, .mockInst)]) := by
  exact ⟨by decide, rfl⟩

set_option linter.unnecessarySeqFocus false in
/-- C8 (corrected): unrequested resolution targets
`getActivePaymentProvider` — the configured default if that is enabled, else
the first enabled provider, else mock — and the "provider not enabled"
rejection fires exactly for a target outside the enabled set: always for an
explicitly requested disabled type, and (with nothing requested) only when the
enabled list is empty, never merely because the configured default is
disabled. -/
theorem C8_resolution_policy (cfg : ProviderConfig) (env : ProviderEnv)
    (cache : ProviderCache) :
    (getProvider cfg env cache none =
      getProvider cfg env cache (some (getActivePaymentProvider cfg))) ∧
    (∀ t, isPaymentProviderEnabled cfg t = false →
      getProvider cfg env cache (some t) =
        .error ("支付提供商 " ++ providerTypeStr t ++ " 未启用")) ∧
    (∀ t, isPaymentProviderEnabled cfg t = true →
      getProvider cfg env cache (some t) ≠
        .error ("支付提供商 " ++ providerTypeStr t ++ " 未启用")) ∧
    (cfg.enabledProviders = [] →
      getProvider cfg env cache none = .error "支付提供商 mock 未启用") := by
  refine ⟨rfl, ?_, ?_, ?_⟩
  · intro t ht
    simp [getProvider, getProviderFuel, ht]
  · intro t ht
    cases t <;>
      simp [getProvider, getProviderFuel, ht, createProviderInstance,
        instIsConfigured, providerTypeStr] <;>
      split <;>
      simp_all [providerTypeStr] <;>
      try (cases env.stripeConfigured <;> simp_all) <;>
      try (rcases h : cache.lookup PaymentProviderType.mock <;> simp_all) <;>
      try (by_cases hm : isPaymentProviderEnabled cfg .mock = true <;>
        simp_all)
  · intro hnil
    simp [getProvider, getProviderFuel, getActivePaymentProvider,
      isPaymentProviderEnabled, hnil]
    rfl

/-- C8 witness: an explicitly requested disabled provider is rejected with the
"not enabled" error. -/
theorem C8_resolution_policy_witness :
    getProvider ⟨.stripe, [.mock]⟩ ⟨false⟩ [] (some .stripe) =
      .error "支付提供商 stripe 未启用" :=
  (C8_resolution_policy ⟨.stripe, [.mock]⟩ ⟨false⟩ []).2.1 .stripe (by decide)

/-! ## Claim C9: mock happy-path one-time purchase -/

/-- C9 counterexample: a mock session created for the one-time plan
`credits_100` still verifies with the provider's fixed demo values — credit
grant 800 and billing type `subscription`, not 100 and `one_time` — because
`extractMockSessionData` ignores the session entirely. -/
theorem C9_counterexample :
    mockCreateCheckoutSession "credits_100" "u1" "http://x" 123 "abc" =
      .ok ⟨"mock_session_123_abc",
        "http://x/payment/mock?session_id=mock_session_123_abc&plan_id=credits_100&user_id=u1&credits=100&amount=99&provider=mock"⟩ ∧
    (mockVerifyPayment "mock_session_123_abc").success = true ∧
    (mockVerifyPayment "mock_session_123_abc").credits = some 800 ∧
    (mockVerifyPayment "mock_session_123_abc").credits ≠ some 100 ∧
    (mockVerifyPayment "mock_session_123_abc").planType = some "subscription" ∧
    (mockVerifyPayment "mock_session_123_abc").planType ≠ some "one_time" := by
  refine ⟨rfl, ?_, ?_, ?_, ?_, ?_⟩ <;> decide

/-- Fixture: the account the mock provider's demo values refer to. -/
def mockUserFixture : User :=
  ⟨"mock_user", "mockuser@example.com", 0, 0, "none", none, none, none, none⟩

/-- Reconciling a verification of a mock session through the verify route. -/
def mockRun : VerifyResp × Db :=
  verifyPaymentGET (some "mockuser@example.com")
    ⟨some "mock_session_123_abc", some "mock", none⟩ mockVerifyPayment true
    ⟨2024, 0, 1⟩ ⟨[mockUserFixture], []⟩

set_option maxRecDepth 8000 in
/-- C9 (corrected): every id with the `mock_session_` lead verifies
successfully with the fixed demo values (user `mock_user`, plan `pro`, 800
credits, billing type `subscription`), so reconciling a mock session — even
one created for `credits_100` — performs an 800-credit pro subscription
activation with one `subscription_activated` ledger entry, not a 100-credit
permanent grant. -/
theorem C9_mock_verification_demo_values :
    (∀ s : String, hasPre "mock_session_".data s.data = true →
      mockVerifyPayment s =
        { success := true, sessionId := s, userId := some "mock_user",
          planId := some "pro", credits := some 800,
          planType := some "subscription", amount := some 599,
          currency := some "usd" }) ∧
    (mockRun.1 = .ok "mock_session_123_abc" (some 599) (some "usd") ∧
     mockRun.2.users.map User.subscriptionCredits = [800] ∧
     mockRun.2.users.map User.credits = [0] ∧
     mockRun.2.users.map User.subscriptionStatus = ["active"] ∧
     mockRun.2.activities.map Activity.kind = ["subscription_activated"] ∧
     mockRun.2.activities.map Activity.creditAmount = [800]) := by
  constructor
  · intro s hs
    simp [mockVerifyPayment, hs]
  · refine ⟨?_, ?_, ?_, ?_, ?_, ?_⟩ <;> decide

/-- C9 witness: the demo-values part of the theorem at the spec's concrete
session id `mock_session_abc`. -/
theorem C9_mock_verification_demo_values_witness :
    mockVerifyPayment "mock_session_abc" =
      { success := true, sessionId := "mock_session_abc",
        userId := some "mock_user", planId := some "pro",
        credits := some 800, planType := some "subscription",
        amount := some 599, currency := some "usd" } :=
  C9_mock_verification_demo_values.1 "mock_session_abc" (by decide)

/-! ## Claim C10: defaults for missing verification metadata -/

/-- C10 (confirmed): when a successful verification result reaches the fresh
reconciliation path carrying no credits and no plan-type (and here also no
plan id), the route substitutes `credits || 800` and
`planType || 'subscription'` (and `planId || 'pro'`), so the payment is
reconciled as an 800-credit pro subscription activation regardless of what
was actually purchased. -/
theorem C10_missing_metadata_defaults (uid email sid : String) (now : JsDate)
    (u : User) (hid : u.id = uid) (hemail : u.email = email)
    (hactive : hasActiveSubscription u now = false) :
    verifyPaymentGET (some email) ⟨none, some "creem", some sid⟩
      (fun s => ({ success := true, sessionId := s, userId := some uid } :
        PaymentVerificationResult))
      true now ⟨[u], []⟩ =
      (.ok sid none none,
       ⟨[{ u with
           subscriptionCredits := 800, subscriptionStatus := "active",
           subscriptionPlan := some "pro",
           subscriptionStartDate := some now,
           subscriptionEndDate := some (jsAddOneMonth now),
           updatedAt := some now }],
        [⟨uid, "subscription_activated",
          "credit_description.subscription_activated", 800,
          verifySubscriptionMetadata ⟨none, some "creem", some sid⟩
            "subscription" "pro" (jsAddOneMonth now) now, now⟩]⟩) := by
  simp [verifyPaymentGET, findUserByEmail, findUserById,
    findActivityBySession, updateUser, insertActivity, jsOrNat, jsOrStr,
    jsTemplate, hid, hemail, hactive]

/-- C10 witness: the defaults at a concrete fresh user and session. -/
theorem C10_missing_metadata_defaults_witness :
    verifyPaymentGET (some "w@example.com") ⟨none, some "creem", some "ch_w"⟩
      (fun s => ({ success := true, sessionId := s, userId := some "uw" } :
        PaymentVerificationResult))
      true ⟨2024, 0, 1⟩
      ⟨[⟨"uw", "w@example.com", 0, 0, "none", none, none, none, none⟩], []⟩ =
      (.ok "ch_w" none none,
       ⟨[⟨"uw", "w@example.com", 0, 800, "active", some "pro",
          some ⟨2024, 0, 1⟩, some (jsAddOneMonth ⟨2024, 0, 1⟩),
          some ⟨2024, 0, 1⟩⟩],
        [⟨"uw", "subscription_activated",
          "credit_description.subscription_activated", 800,
          verifySubscriptionMetadata ⟨none, some "creem", some "ch_w"⟩
            "subscription" "pro" (jsAddOneMonth ⟨2024, 0, 1⟩) ⟨2024, 0, 1⟩,
          ⟨2024, 0, 1⟩⟩]⟩) :=
  C10_missing_metadata_defaults "uw" "w@example.com" "ch_w" ⟨2024, 0, 1⟩
    ⟨"uw", "w@example.com", 0, 0, "none", none, none, none, none⟩
    rfl rfl (by decide)
